import Mathlib

/-!
# pulsarctl namespace commands: `set-retention`, `remove-message-ttl`,
# `remove-max-consumers-per-topic`

A shallow embedding of the three command handlers of `pkg/ctl/namespace`

* `doSetRetention`                (set_retention.go)
* `doDeleteMessageTTL`            (remove_message_ttl.go)
* `doRemoveMaxConsumersPerTopic`  (remove_max_consumers_per_topic.go)

Each handler is a function from its inputs and its collaborators to an `Outcome`:
the ordered list of observable events (creation of the admin client, the
administrative operation, the text handed to `vc.Command.Printf`) together with
the returned Go `error` (`none` is `nil`).

The collaborators whose code lives outside these three files (the two value
parsers, `GetNamespaceName`, the admin client) are fields of `Env`; every theorem
quantifies over all of them.

Machine integers are `Int` with explicit wrapping (`wrapInt64`); Go `int` is the
64-bit `int` of the amd64/arm64 targets. `time.Duration` is its `int64` count of
nanoseconds. `float64` values are the rationals they denote, every operation being
followed by `roundFloat64` (round to nearest, ties to even, 53-bit significand).
-/

namespace Pulsarctl

/-! ## Machine integers -/

/-- Membership in the range of Go `int64`. -/
def isInt64 (x : Int) : Prop := -9223372036854775808 ≤ x ∧ x ≤ 9223372036854775807

instance (x : Int) : Decidable (isInt64 x) := by
  unfold isInt64; exact inferInstance

/-- Two's-complement wrap of an integer into the `int64` range. -/
def wrapInt64 (x : Int) : Int :=
  (x + 9223372036854775808) % 18446744073709551616 - 9223372036854775808

/-- Go conversion `int(x)` of an integer value (64-bit `int`). -/
def toInt (x : Int) : Int := wrapInt64 x

/-- Go `/` on `int64`: the quotient truncated toward zero, wrapped. -/
def int64Div (a b : Int) : Int := wrapInt64 (Int.tdiv a b)

/-- Go `%` on `int64`: the remainder of the truncated division. -/
def int64Mod (a b : Int) : Int := wrapInt64 (Int.tmod a b)

/-! ## `float64` -/

/-- Nearest integer to a rational, ties to the even neighbour. -/
def roundHalfEven (q : ℚ) : ℤ :=
  if q - ⌊q⌋ < 1 / 2 then ⌊q⌋
  else if 1 / 2 < q - ⌊q⌋ then ⌊q⌋ + 1
  else if ⌊q⌋ % 2 = 0 then ⌊q⌋ else ⌊q⌋ + 1

/-- The `float64` nearest to the rational `x` (round to nearest, ties to even):
`x` is scaled so that its significand has 53 bits, with the exponent clamped at the
subnormal threshold. Finite range only: no value of magnitude `2^1024` or more arises
in this development. -/
def roundFloat64 (x : ℚ) : ℚ :=
  if x = 0 then 0
  else roundHalfEven (x / (2 : ℚ) ^ (max (Int.log 2 |x|) (-1022) - 52))
        * (2 : ℚ) ^ (max (Int.log 2 |x|) (-1022) - 52)

/-- Go conversion `float64(n)` of an integer. -/
def float64OfInt (n : Int) : ℚ := roundFloat64 (n : ℚ)

/-- Go `+` on `float64`. -/
def float64Add (a b : ℚ) : ℚ := roundFloat64 (a + b)

/-- Go `/` on `float64` (nonzero divisor). -/
def float64Div (a b : ℚ) : ℚ := roundFloat64 (a / b)

/-- Go conversion `int(f)` of a `float64`: the fraction is discarded
(truncation toward zero). -/
def intOfFloat64 (f : ℚ) : Int := toInt (if 0 ≤ f then ⌊f⌋ else ⌈f⌉)

/-! ## `time.Duration` -/

/-- Go `time.Minute`, in nanoseconds. -/
def Minute : Int := 60000000000

/-- Go `time.Second`, in nanoseconds. -/
def Second : Int := 1000000000

/-- Go `time.Duration.Minutes`:
```
min := d / Minute
nsec := d % Minute
return float64(min) + float64(nsec)/(60*1e9)
```
-/
def Minutes (d : Int) : ℚ :=
  float64Add (float64OfInt (int64Div d Minute))
    (float64Div (float64OfInt (int64Mod d Minute)) (roundFloat64 (60 * 1000000000)))

/-! ## Data model -/

/-- The two fields of `util.NamespacesData` read by `doSetRetention`. -/
structure NamespacesData where
  RetentionTimeStr : String
  LimitStr : String
deriving DecidableEq, Repr

/-- Modelled from the spec: the type `util.RetentionPolicies` and its constructor
`util.NewRetentionPolicies` are declared outside the three source files; the spec
describes the value as the pair (retentionTimeMinutes, retentionSizeMB). -/
structure RetentionPolicies where
  RetentionTimeInMinutes : Int
  RetentionSizeInMB : Int
deriving DecidableEq, Repr

/-- The constructor call `util.NewRetentionPolicies(retentionTimeInMin, retentionSizeInMB)`. -/
def NewRetentionPolicies (retentionTimeInMin retentionSizeInMB : Int) : RetentionPolicies :=
  ⟨retentionTimeInMin, retentionSizeInMB⟩

/-- The administrative operations the handlers invoke on `admin.Namespaces()`.
`ν` is the type `utils.NameSpaceName`. -/
inductive AdminOp (ν : Type) where
  | SetRetention (ns : String) (policy : RetentionPolicies)
  | RemoveNamespaceMessageTTL (ns : String)
  | RemoveMaxConsumersPerTopic (ns : ν)
deriving DecidableEq, Repr

/-- Observable steps of a handler run. -/
inductive Event (ν : Type) where
  | NewPulsarClient
  | Admin (op : AdminOp ν)
  | Printf (out : String)
deriving DecidableEq, Repr

/-- The collaborators of the handlers. `ε` is the type of non-nil Go `error` values. -/
structure Env (ε ν : Type) where
  /-- `utils.ValidateSizeString`: an `int64` byte count or an error. -/
  ValidateSizeString : String → Except ε Int
  /-- `utils.ParseRelativeTimeInSeconds`: a `time.Duration` or an error. -/
  ParseRelativeTimeInSeconds : String → Except ε Int
  /-- `utils.GetNamespaceName`. -/
  GetNamespaceName : String → Except ε ν
  /-- The method `NameSpaceName.String`. -/
  nsString : ν → String
  /-- The response of the admin client to an operation (`none` is a nil error); a
  handler run asks at most once. -/
  admin : AdminOp ν → Option ε

/-- What a handler run leaves behind: the events in order, and the returned error. -/
structure Outcome (ε ν : Type) where
  trace : List (Event ν)
  err : Option ε

/-! ## Formatting -/

/-- The verb `%d` applied to a Go `int`. -/
def fmtD (n : Int) : String :=
  if n < 0 then "-" ++ Nat.repr n.natAbs else Nat.repr n.natAbs

/-- The text of `Printf("Set retention successfully for [%s]."+
" The retention policy is: time = %d min, size = %d MB\n", ns, min, mb)`. -/
def setRetentionLine (ns : String) (retentionTimeInMin retentionSizeInMB : Int) : String :=
  "Set retention successfully for [" ++ ns ++ "]. The retention policy is: time = " ++
    fmtD retentionTimeInMin ++ " min, size = " ++ fmtD retentionSizeInMB ++ " MB\n"

/-- The text of
`Printf("Successfully removed Message TTL setting for namespace %s\n", ns)`. -/
def deleteMessageTTLLine (ns : String) : String :=
  "Successfully removed Message TTL setting for namespace " ++ ns ++ "\n"

/-- The text of `Printf("Successfully removed the max consumers per topic setting
for namespace %s\n", ns.String())`. -/
def removeMaxConsumersPerTopicLine (ns : String) : String :=
  "Successfully removed the max consumers per topic setting for namespace " ++ ns ++ "\n"

/-- The `Out` field of the descriptor `successOut` ("normal output") registered by
`RemoveMessageTTL`. -/
def RemoveMessageTTL_successOut : String :=
  "Successfully removed message TTL for [tenant/namespace]"

/-! ## The handlers -/

/-- Lines 129-133 of set_retention.go: the minutes computed from the parsed duration.
The parsed value is a `time.Duration` (the handler calls `.Minutes()` on it), so the
comparison with `-1` is a comparison of its raw nanosecond count. -/
def retentionTimeInMin (retentionTimeInSecond : Int) : Int :=
  if retentionTimeInSecond ≠ -1 then intOfFloat64 (Minutes retentionTimeInSecond)
  else -1

/-- Lines 135-139 of set_retention.go: the megabytes computed from the parsed size. -/
def retentionSizeInMB (sizeLimit : Int) : Int :=
  if sizeLimit ≠ -1 then toInt (int64Div sizeLimit (1024 * 1024))
  else -1

/-- The handler `doSetRetention(vc, data)`, with `NameArg` the field `vc.NameArg`. -/
def doSetRetention {ε ν : Type} (env : Env ε ν) (NameArg : String) (data : NamespacesData) :
    Outcome ε ν :=
  let ns := NameArg
  match env.ValidateSizeString data.LimitStr with
  | .error err => ⟨[.NewPulsarClient], some err⟩
  | .ok sizeLimit =>
    match env.ParseRelativeTimeInSeconds data.RetentionTimeStr with
    | .error err => ⟨[.NewPulsarClient], some err⟩
    | .ok retentionTimeInSecond =>
      let op := AdminOp.SetRetention ns
        (NewRetentionPolicies (retentionTimeInMin retentionTimeInSecond)
          (retentionSizeInMB sizeLimit))
      match env.admin op with
      | none =>
        ⟨[.NewPulsarClient, .Admin op,
          .Printf (setRetentionLine ns (retentionTimeInMin retentionTimeInSecond)
            (retentionSizeInMB sizeLimit))], none⟩
      | some err => ⟨[.NewPulsarClient, .Admin op], some err⟩

/-- The handler `doDeleteMessageTTL(vc)`. -/
def doDeleteMessageTTL {ε ν : Type} (env : Env ε ν) (NameArg : String) : Outcome ε ν :=
  let ns := NameArg
  let op := AdminOp.RemoveNamespaceMessageTTL ns
  match env.admin op with
  | none => ⟨[.NewPulsarClient, .Admin op, .Printf (deleteMessageTTLLine ns)], none⟩
  | some err => ⟨[.NewPulsarClient, .Admin op], some err⟩

/-- The handler `doRemoveMaxConsumersPerTopic(vc)`. -/
def doRemoveMaxConsumersPerTopic {ε ν : Type} (env : Env ε ν) (NameArg : String) :
    Outcome ε ν :=
  match env.GetNamespaceName NameArg with
  | .error err => ⟨[], some err⟩
  | .ok ns =>
    let op := AdminOp.RemoveMaxConsumersPerTopic ns
    match env.admin op with
    | none =>
      ⟨[.NewPulsarClient, .Admin op,
        .Printf (removeMaxConsumersPerTopicLine (env.nsString ns))], none⟩
    | some err => ⟨[.NewPulsarClient, .Admin op], some err⟩

/-! ## Observations on an outcome -/

/-- The administrative operations performed, in order. -/
def adminOps {ν : Type} : List (Event ν) → List (AdminOp ν)
  | [] => []
  | .Admin op :: rest => op :: adminOps rest
  | _ :: rest => adminOps rest

/-- The text written to the command output, in order. -/
def printed {ν : Type} : List (Event ν) → List String
  | [] => []
  | .Printf out :: rest => out :: printed rest
  | _ :: rest => printed rest

/-! ## Fixed collaborators for the concrete instances -/

/-- Collaborators that answer with the given results whatever they are asked. -/
def fixedEnv (size time : Except String Int) (name : Except String String)
    (resp : Option String) : Env String String where
  ValidateSizeString := fun _ => size
  ParseRelativeTimeInSeconds := fun _ => time
  GetNamespaceName := fun _ => name
  nsString := fun n => n
  admin := fun _ => resp

/-- The flags of `pulsarctl namespaces set-retention tenant/namespace --time 100m --size 1G`. -/
def flags100m1G : NamespacesData := ⟨"100m", "1G"⟩

/-! ## Integer arithmetic -/

theorem wrapInt64_of_isInt64 {x : Int} (h : isInt64 x) : wrapInt64 x = x := by
  unfold isInt64 at h
  unfold wrapInt64
  omega

theorem tdiv_of_nonneg {a c : Int} (ha : 0 ≤ a) (hc : 0 < c) : Int.tdiv a c = a / c :=
  Int.tdiv_eq_ediv ha (le_of_lt hc)

theorem tdiv_of_nonpos {a c : Int} (ha : a ≤ 0) (hc : 0 < c) :
    Int.tdiv a c = -((-a) / c) := by
  have h : Int.tdiv (-a) c = (-a) / c := Int.tdiv_eq_ediv (by omega) (le_of_lt hc)
  rw [← h, Int.neg_tdiv, neg_neg]

theorem tmod_of_nonneg {a c : Int} (ha : 0 ≤ a) (hc : 0 < c) : Int.tmod a c = a % c :=
  Int.tmod_eq_emod ha (le_of_lt hc)

theorem tmod_of_nonpos {a c : Int} (ha : a ≤ 0) (hc : 0 < c) :
    Int.tmod a c = -((-a) % c) := by
  rw [Int.tmod_def, tdiv_of_nonpos ha hc, Int.emod_def]
  ring

/-- The megabytes computed from a non-negative byte count: the floor quotient. -/
theorem retentionSizeInMB_of_nonneg {b : Int} (h : isInt64 b) (h0 : 0 ≤ b) :
    retentionSizeInMB b = b / 1048576 := by
  have hne : b ≠ -1 := by omega
  unfold retentionSizeInMB toInt int64Div
  rw [if_pos hne, tdiv_of_nonneg h0 (by norm_num)]
  unfold isInt64 at h
  unfold wrapInt64
  omega

/-- The megabytes computed from a negative byte count other than `-1`. -/
theorem retentionSizeInMB_of_neg {b : Int} (h : isInt64 b) (h0 : b < 0) (hne : b ≠ -1) :
    retentionSizeInMB b = -((-b) / 1048576) := by
  unfold retentionSizeInMB toInt int64Div
  rw [if_pos hne, tdiv_of_nonpos (le_of_lt h0) (by norm_num)]
  unfold isInt64 at h
  unfold wrapInt64
  omega

/-- The quotient of lines 135-139 never leaves the `int64` range: no wrap occurs. -/
theorem retentionSizeInMB_eq_tdiv {b : Int} (h : isInt64 b) (hne : b ≠ -1) :
    retentionSizeInMB b = Int.tdiv b 1048576 := by
  rcases le_or_lt 0 b with h0 | h0
  · rw [retentionSizeInMB_of_nonneg h h0, tdiv_of_nonneg h0 (by norm_num)]
  · rw [retentionSizeInMB_of_neg h h0 hne, tdiv_of_nonpos (le_of_lt h0) (by norm_num)]

/-! ## Rounding -/

theorem roundHalfEven_intCast (k : ℤ) : roundHalfEven (k : ℚ) = k := by
  unfold roundHalfEven
  rw [Int.floor_intCast, sub_self, if_pos (by norm_num)]

theorem roundHalfEven_err (q : ℚ) : |((roundHalfEven q : ℤ) : ℚ) - q| ≤ 1 / 2 := by
  have h1 : ((⌊q⌋ : ℤ) : ℚ) ≤ q := Int.floor_le q
  have h2 : q < ((⌊q⌋ : ℤ) : ℚ) + 1 := Int.lt_floor_add_one q
  unfold roundHalfEven
  rw [abs_le]
  split_ifs with a b c
  · constructor <;> linarith
  · push_cast; constructor <;> linarith
  · constructor <;> linarith
  · push_cast; constructor <;> linarith

theorem two_zpow_pos (e : ℤ) : (0 : ℚ) < (2 : ℚ) ^ e := by positivity

/-- Absolute error of one rounding, for an argument below `2^k`. -/
theorem roundFloat64_err {x : ℚ} {k : ℤ} (hx : |x| < (2 : ℚ) ^ k) (hk : -1021 ≤ k) :
    |roundFloat64 x - x| ≤ (2 : ℚ) ^ (k - 53) := by
  unfold roundFloat64
  by_cases h0 : x = 0
  · rw [if_pos h0, h0, sub_zero, abs_zero]
    exact le_of_lt (two_zpow_pos _)
  · rw [if_neg h0]
    have hpos : 0 < |x| := abs_pos.mpr h0
    have hlog : Int.log 2 |x| < k := by
      have := (Int.lt_zpow_iff_log_lt (R := ℚ) (b := 2) (by norm_num) (x := k) hpos).mp
        (by simpa using hx)
      exact this
    set e := max (Int.log 2 |x|) (-1022) with he
    have hek : e - 52 ≤ k - 53 := by
      have : e ≤ k - 1 := by
        rw [he]; exact max_le (by omega) (by omega)
      omega
    have hu : (0 : ℚ) < (2 : ℚ) ^ (e - 52) := two_zpow_pos _
    have hule : (2 : ℚ) ^ (e - 52) ≤ (2 : ℚ) ^ (k - 53) := zpow_le_zpow_right₀ (by norm_num) hek
    have herr := roundHalfEven_err (x / (2 : ℚ) ^ (e - 52))
    have hx_eq : x = x / (2 : ℚ) ^ (e - 52) * (2 : ℚ) ^ (e - 52) := by
      field_simp
    have : ((roundHalfEven (x / (2 : ℚ) ^ (e - 52)) : ℤ) : ℚ) * (2 : ℚ) ^ (e - 52) - x
        = (((roundHalfEven (x / (2 : ℚ) ^ (e - 52)) : ℤ) : ℚ) - x / (2 : ℚ) ^ (e - 52))
            * (2 : ℚ) ^ (e - 52) := by
      rw [sub_mul]; congr 1
    rw [this, abs_mul, abs_of_pos hu]
    calc |((roundHalfEven (x / (2 : ℚ) ^ (e - 52)) : ℤ) : ℚ) - x / (2 : ℚ) ^ (e - 52)|
            * (2 : ℚ) ^ (e - 52)
        ≤ 1 / 2 * (2 : ℚ) ^ (e - 52) := mul_le_mul_of_nonneg_right herr (le_of_lt hu)
      _ ≤ 1 * (2 : ℚ) ^ (e - 52) := by
          apply mul_le_mul_of_nonneg_right (by norm_num) (le_of_lt hu)
      _ = (2 : ℚ) ^ (e - 52) := one_mul _
      _ ≤ (2 : ℚ) ^ (k - 53) := hule

/-- Integers of magnitude below `2^53` are `float64` values: converting them is exact. -/
theorem float64OfInt_exact {n : ℤ} (hn : |n| < 9007199254740992) : float64OfInt n = n := by
  unfold float64OfInt roundFloat64
  by_cases h0 : (n : ℚ) = 0
  · rw [if_pos h0, h0]
  · rw [if_neg h0]
    have hn0 : n ≠ 0 := by exact_mod_cast h0
    have habs : |(n : ℚ)| = ((|n| : ℤ) : ℚ) := by push_cast; rfl
    have hpos : 0 < |(n : ℚ)| := abs_pos.mpr h0
    have h1 : (1 : ℚ) ≤ |(n : ℚ)| := by
      rw [habs]
      have : (1 : ℤ) ≤ |n| := Int.one_le_abs hn0
      exact_mod_cast this
    have hlo : 0 ≤ Int.log 2 |(n : ℚ)| := by
      have := (Int.zpow_le_iff_le_log (R := ℚ) (b := 2) (by norm_num) (x := 0) hpos).mp
        (by simpa using h1)
      exact this
    have hhi : Int.log 2 |(n : ℚ)| < 53 := by
      have hlt : |(n : ℚ)| < ((2 : ℕ) : ℚ) ^ (53 : ℤ) := by
        rw [habs]
        have : ((|n| : ℤ) : ℚ) < ((9007199254740992 : ℤ) : ℚ) := by exact_mod_cast hn
        calc ((|n| : ℤ) : ℚ) < ((9007199254740992 : ℤ) : ℚ) := this
          _ = ((2 : ℕ) : ℚ) ^ (53 : ℤ) := by norm_num
      exact (Int.lt_zpow_iff_log_lt (R := ℚ) (b := 2) (by norm_num) (x := 53) hpos).mp hlt
    have hmax : max (Int.log 2 |(n : ℚ)|) (-1022) = Int.log 2 |(n : ℚ)| :=
      max_eq_left (by omega)
    rw [hmax]
    obtain ⟨j, hj⟩ : ∃ j : ℕ, (52 : ℤ) - Int.log 2 |(n : ℚ)| = (j : ℤ) :=
      ⟨(52 - Int.log 2 |(n : ℚ)|).toNat, by rw [Int.toNat_of_nonneg (by omega)]⟩
    have hexp : Int.log 2 |(n : ℚ)| - 52 = -(j : ℤ) := by omega
    rw [hexp, zpow_neg, zpow_natCast]
    have hq : (n : ℚ) / ((2 : ℚ) ^ j)⁻¹ = ((n * 2 ^ j : ℤ) : ℚ) := by
      push_cast; field_simp
    rw [hq, roundHalfEven_intCast]
    push_cast
    field_simp

/-! ## `Minutes` on whole seconds -/

theorem roundFloat64_zero : roundFloat64 0 = 0 := by
  unfold roundFloat64
  rw [if_pos rfl]

theorem toInt_of_isInt64 {x : Int} (h : isInt64 x) : toInt x = x :=
  wrapInt64_of_isInt64 h

/-- The sum `float64(min) + float64(nsec)/(60*1e9)` truncates back to `min` when
`nsec` is a whole number `k` of seconds of the same sign as `min`. -/
theorem intOfFloat64_minutes_sum (m k : ℤ) (hm : |m| ≤ 153722867) (hk : |k| ≤ 59)
    (hsign : (0 ≤ m ∧ 0 ≤ k) ∨ (m ≤ 0 ∧ k ≤ 0)) :
    intOfFloat64 (float64Add (m : ℚ) (float64Div ((k * 1000000000 : ℤ) : ℚ) 60000000000))
      = m := by
  have hmI : isInt64 m := by
    unfold isInt64
    rw [abs_le] at hm
    omega
  by_cases hk0 : k = 0
  · -- no fractional part: every step is exact
    subst hk0
    have hm53 : |m| < 9007199254740992 := by omega
    have hex := float64OfInt_exact hm53
    unfold float64OfInt at hex
    unfold float64Add float64Div intOfFloat64
    simp only [zero_mul, Int.cast_zero, zero_div, roundFloat64_zero, add_zero]
    rw [hex]
    simp only [Int.floor_intCast, Int.ceil_intCast, ite_self]
    exact toInt_of_isInt64 hmI
  · -- a fractional part between 1/60 and 59/60 in magnitude
    have hq : ((k * 1000000000 : ℤ) : ℚ) / 60000000000 = (k : ℚ) / 60 := by
      push_cast; field_simp; ring
    have hkq : |(k : ℚ)| ≤ 59 := by
      have : ((|k| : ℤ) : ℚ) ≤ ((59 : ℤ) : ℚ) := by exact_mod_cast hk
      simpa using this
    have hmq : |(m : ℚ)| ≤ 153722867 := by
      have : ((|m| : ℤ) : ℚ) ≤ ((153722867 : ℤ) : ℚ) := by exact_mod_cast hm
      simpa using this
    rw [abs_le] at hkq hmq
    have hp53 : (2 : ℚ) ^ ((0 : ℤ) - 53) = 1 / 9007199254740992 := by norm_num
    have hp25 : (2 : ℚ) ^ ((28 : ℤ) - 53) = 1 / 33554432 := by norm_num
    have hp0 : (2 : ℚ) ^ (0 : ℤ) = 1 := by norm_num
    have hp28 : (2 : ℚ) ^ (28 : ℤ) = 268435456 := by norm_num
    have e1 : |roundFloat64 ((k : ℚ) / 60) - (k : ℚ) / 60| ≤ 1 / 9007199254740992 := by
      rw [← hp53]
      apply roundFloat64_err _ (by norm_num)
      rw [hp0, abs_lt]
      constructor <;> linarith
    rw [abs_le] at e1
    have e2 : |roundFloat64 ((m : ℚ) + roundFloat64 ((k : ℚ) / 60))
        - ((m : ℚ) + roundFloat64 ((k : ℚ) / 60))| ≤ 1 / 33554432 := by
      rw [← hp25]
      apply roundFloat64_err _ (by norm_num)
      rw [hp28, abs_lt]
      constructor <;> linarith
    rw [abs_le] at e2
    unfold float64Add float64Div intOfFloat64
    rw [hq]
    rcases hsign with ⟨hm0, hk0s⟩ | ⟨hm0, hk0s⟩
    · have hk1 : (1 : ℚ) ≤ (k : ℚ) := by
        have : (1 : ℤ) ≤ k := by omega
        exact_mod_cast this
      have hm0q : (0 : ℚ) ≤ (m : ℚ) := by exact_mod_cast hm0
      have hR0 : 0 ≤ roundFloat64 ((m : ℚ) + roundFloat64 ((k : ℚ) / 60)) := by linarith
      rw [if_pos hR0]
      have hfl : ⌊roundFloat64 ((m : ℚ) + roundFloat64 ((k : ℚ) / 60))⌋ = m := by
        rw [Int.floor_eq_iff]
        constructor <;> linarith
      rw [hfl]
      exact toInt_of_isInt64 hmI
    · have hk1 : (k : ℚ) ≤ -1 := by
        have : k ≤ (-1 : ℤ) := by omega
        exact_mod_cast this
      have hm0q : (m : ℚ) ≤ 0 := by exact_mod_cast hm0
      have hR0 : ¬ 0 ≤ roundFloat64 ((m : ℚ) + roundFloat64 ((k : ℚ) / 60)) := by
        rw [not_le]; linarith
      rw [if_neg hR0]
      have hcl : ⌈roundFloat64 ((m : ℚ) + roundFloat64 ((k : ℚ) / 60))⌉ = m := by
        rw [Int.ceil_eq_iff]
        constructor <;> linarith
      rw [hcl]
      exact toInt_of_isInt64 hmI

/-- The quotient and remainder taken by `Minutes` on a whole number of seconds. -/
theorem div_mod_of_seconds {s : ℤ} (hs : |s| ≤ 9223372036) :
    int64Div (s * Second) Minute = Int.tdiv s 60
      ∧ int64Mod (s * Second) Minute = Int.tmod s 60 * 1000000000 := by
  rw [abs_le] at hs
  have hquot : ∀ a : ℤ, a * 1000000000 / 60000000000 = a / 60 := by
    intro a
    have h := Int.mul_ediv_mul_of_pos_left a (b := 1000000000) 60 (by norm_num)
    norm_num at h
    exact h
  have hrem : ∀ a : ℤ, a * 1000000000 % 60000000000 = a % 60 * 1000000000 := by
    intro a
    have h := hquot a
    omega
  unfold int64Div int64Mod Second Minute wrapInt64
  rcases le_or_lt 0 s with h0 | h0
  · rw [tdiv_of_nonneg (by omega) (by norm_num), tmod_of_nonneg (by omega) (by norm_num),
      tdiv_of_nonneg h0 (by norm_num), tmod_of_nonneg h0 (by norm_num), hquot, hrem]
    omega
  · rw [tdiv_of_nonpos (by omega) (by norm_num), tmod_of_nonpos (by omega) (by norm_num),
      tdiv_of_nonpos (le_of_lt h0) (by norm_num), tmod_of_nonpos (le_of_lt h0) (by norm_num)]
    have e : -(s * 1000000000) = (-s) * 1000000000 := by ring
    rw [e, hquot, hrem]
    omega

/-- For a duration of `s` whole seconds, `int(d.Minutes())` is `s / 60` truncated
toward zero: the two roundings of `Minutes` never reach the next integer. -/
theorem intOfFloat64_Minutes_of_seconds {s : ℤ} (hs : |s| ≤ 9223372036) :
    intOfFloat64 (Minutes (s * Second)) = Int.tdiv s 60 := by
  obtain ⟨hd, hr⟩ := div_mod_of_seconds hs
  have hs2 := hs
  rw [abs_le] at hs2
  have hm : |Int.tdiv s 60| ≤ 153722867 := by
    rw [abs_le]
    rcases le_or_lt 0 s with h0 | h0
    · rw [tdiv_of_nonneg h0 (by norm_num)]; omega
    · rw [tdiv_of_nonpos (le_of_lt h0) (by norm_num)]; omega
  have hk : |Int.tmod s 60| ≤ 59 := by
    rw [abs_le]
    rcases le_or_lt 0 s with h0 | h0
    · rw [tmod_of_nonneg h0 (by norm_num)]; omega
    · rw [tmod_of_nonpos (le_of_lt h0) (by norm_num)]; omega
  have hsign : (0 ≤ Int.tdiv s 60 ∧ 0 ≤ Int.tmod s 60)
      ∨ (Int.tdiv s 60 ≤ 0 ∧ Int.tmod s 60 ≤ 0) := by
    rcases le_or_lt 0 s with h0 | h0
    · left
      rw [tdiv_of_nonneg h0 (by norm_num), tmod_of_nonneg h0 (by norm_num)]; omega
    · right
      rw [tdiv_of_nonpos (le_of_lt h0) (by norm_num),
        tmod_of_nonpos (le_of_lt h0) (by norm_num)]; omega
  have hm53 : |Int.tdiv s 60| < 9007199254740992 := by omega
  have hk53 : |Int.tmod s 60 * 1000000000| < 9007199254740992 := by
    rw [abs_le] at hk
    rw [abs_lt]
    omega
  have hc : roundFloat64 (60 * 1000000000) = 60000000000 := by
    have := float64OfInt_exact (n := 60000000000) (by norm_num)
    unfold float64OfInt at this
    norm_num at this ⊢
    exact this
  unfold Minutes
  rw [hd, hr, float64OfInt_exact hm53, float64OfInt_exact hk53, hc]
  exact intOfFloat64_minutes_sum _ _ hm hk hsign

/-- The minutes computed from a parsed duration of `s` whole seconds. -/
theorem retentionTimeInMin_of_seconds {s : ℤ} (hs : |s| ≤ 9223372036) :
    retentionTimeInMin (s * Second) = Int.tdiv s 60 := by
  have hne : s * Second ≠ -1 := by
    unfold Second
    omega
  unfold retentionTimeInMin
  rw [if_pos hne]
  exact intOfFloat64_Minutes_of_seconds hs

/-! ## Floor quotients -/

theorem floor_div_mebibyte (b : ℤ) : ⌊(b : ℚ) / (1024 * 1024)⌋ = b / 1048576 := by
  have h := Rat.floor_intCast_div_natCast b 1048576
  have e : ((1048576 : ℕ) : ℚ) = 1024 * 1024 := by norm_num
  rw [e] at h
  rw [h]
  norm_num

theorem floor_div_sixty (s : ℤ) : ⌊(s : ℚ) / 60⌋ = s / 60 := by
  have h := Rat.floor_intCast_div_natCast s 60
  have e : ((60 : ℕ) : ℚ) = 60 := by norm_num
  rw [e] at h
  rw [h]
  norm_num

/-! ## Durations below one minute -/

/-- A duration of at most 59 seconds in magnitude, other than the raw value `-1`,
yields zero minutes. -/
theorem retentionTimeInMin_of_small {d : ℤ} (hd : |d| ≤ 59000000000) (hne : d ≠ -1) :
    retentionTimeInMin d = 0 := by
  have hd2 := hd
  rw [abs_le] at hd2
  have hdiv : int64Div d Minute = 0 := by
    unfold int64Div Minute wrapInt64
    rcases le_or_lt 0 d with h0 | h0
    · rw [tdiv_of_nonneg h0 (by norm_num)]; omega
    · rw [tdiv_of_nonpos (le_of_lt h0) (by norm_num)]; omega
  have hmod : int64Mod d Minute = d := by
    unfold int64Mod Minute wrapInt64
    rcases le_or_lt 0 d with h0 | h0
    · rw [tmod_of_nonneg h0 (by norm_num)]; omega
    · rw [tmod_of_nonpos (le_of_lt h0) (by norm_num)]; omega
  have hc : roundFloat64 (60 * 1000000000) = 60000000000 := by
    have := float64OfInt_exact (n := 60000000000) (by norm_num)
    unfold float64OfInt at this
    norm_num at this ⊢
    exact this
  have hd53 : |d| < 9007199254740992 := by omega
  have hz : float64OfInt 0 = 0 := by
    unfold float64OfInt
    rw [Int.cast_zero, roundFloat64_zero]
  have hdq : |(d : ℚ)| ≤ 59000000000 := by
    have : ((|d| : ℤ) : ℚ) ≤ ((59000000000 : ℤ) : ℚ) := by exact_mod_cast hd
    simpa using this
  rw [abs_le] at hdq
  have hp53 : (2 : ℚ) ^ ((0 : ℤ) - 53) = 1 / 9007199254740992 := by norm_num
  have hp0 : (2 : ℚ) ^ (0 : ℤ) = 1 := by norm_num
  have e1 : |roundFloat64 ((d : ℚ) / 60000000000) - (d : ℚ) / 60000000000|
      ≤ 1 / 9007199254740992 := by
    rw [← hp53]
    apply roundFloat64_err _ (by norm_num)
    rw [hp0, abs_lt]
    constructor <;> linarith
  rw [abs_le] at e1
  have e2 : |roundFloat64 (0 + roundFloat64 ((d : ℚ) / 60000000000))
      - (0 + roundFloat64 ((d : ℚ) / 60000000000))| ≤ 1 / 9007199254740992 := by
    rw [← hp53]
    apply roundFloat64_err _ (by norm_num)
    rw [hp0, abs_lt]
    constructor <;> linarith
  rw [abs_le] at e2
  unfold retentionTimeInMin
  rw [if_pos hne]
  unfold Minutes
  rw [hdiv, hmod, hz, float64OfInt_exact hd53, hc]
  unfold float64Add float64Div intOfFloat64
  have h0I : toInt 0 = 0 := by decide
  split_ifs with hR
  · have hfl : ⌊roundFloat64 (0 + roundFloat64 ((d : ℚ) / 60000000000))⌋ = 0 := by
      rw [Int.floor_eq_iff]
      constructor
      · simpa using hR
      · push_cast; linarith
    rw [hfl, h0I]
  · rw [not_le] at hR
    have hcl : ⌈roundFloat64 (0 + roundFloat64 ((d : ℚ) / 60000000000))⌉ = 0 := by
      rw [Int.ceil_eq_iff]
      constructor
      · push_cast; linarith
      · simpa using le_of_lt hR
    rw [hcl, h0I]

/-! ## The three paths of `doSetRetention` -/

theorem doSetRetention_size_error {ε ν : Type} (env : Env ε ν) (NameArg : String)
    (data : NamespacesData) {e : ε} (hs : env.ValidateSizeString data.LimitStr = .error e) :
    doSetRetention env NameArg data = ⟨[.NewPulsarClient], some e⟩ := by
  unfold doSetRetention
  simp only [hs]

theorem doSetRetention_time_error {ε ν : Type} (env : Env ε ν) (NameArg : String)
    (data : NamespacesData) {b : Int} {e : ε}
    (hs : env.ValidateSizeString data.LimitStr = .ok b)
    (ht : env.ParseRelativeTimeInSeconds data.RetentionTimeStr = .error e) :
    doSetRetention env NameArg data = ⟨[.NewPulsarClient], some e⟩ := by
  unfold doSetRetention
  simp only [hs, ht]

theorem doSetRetention_parsed {ε ν : Type} (env : Env ε ν) (NameArg : String)
    (data : NamespacesData) {b t : Int}
    (hs : env.ValidateSizeString data.LimitStr = .ok b)
    (ht : env.ParseRelativeTimeInSeconds data.RetentionTimeStr = .ok t) :
    doSetRetention env NameArg data =
      match env.admin (.SetRetention NameArg
          (NewRetentionPolicies (retentionTimeInMin t) (retentionSizeInMB b))) with
      | none =>
        ⟨[.NewPulsarClient,
          .Admin (.SetRetention NameArg
            (NewRetentionPolicies (retentionTimeInMin t) (retentionSizeInMB b))),
          .Printf (setRetentionLine NameArg (retentionTimeInMin t) (retentionSizeInMB b))],
          none⟩
      | some err =>
        ⟨[.NewPulsarClient,
          .Admin (.SetRetention NameArg
            (NewRetentionPolicies (retentionTimeInMin t) (retentionSizeInMB b)))],
          some err⟩ := by
  unfold doSetRetention
  simp only [hs, ht]

/-- Once both strings parse, exactly one operation reaches the admin client. -/
theorem doSetRetention_adminOps {ε ν : Type} (env : Env ε ν) (NameArg : String)
    (data : NamespacesData) {b t : Int}
    (hs : env.ValidateSizeString data.LimitStr = .ok b)
    (ht : env.ParseRelativeTimeInSeconds data.RetentionTimeStr = .ok t) :
    adminOps (doSetRetention env NameArg data).trace =
      [.SetRetention NameArg
        (NewRetentionPolicies (retentionTimeInMin t) (retentionSizeInMB b))] := by
  rw [doSetRetention_parsed env NameArg data hs ht]
  cases env.admin (.SetRetention NameArg
      (NewRetentionPolicies (retentionTimeInMin t) (retentionSizeInMB b))) <;> rfl

/-! ## The two paths of `doRemoveMaxConsumersPerTopic` -/

theorem doRemoveMaxConsumersPerTopic_name_error {ε ν : Type} (env : Env ε ν)
    (NameArg : String) {e : ε} (hn : env.GetNamespaceName NameArg = .error e) :
    doRemoveMaxConsumersPerTopic env NameArg = ⟨[], some e⟩ := by
  unfold doRemoveMaxConsumersPerTopic
  simp only [hn]

theorem doRemoveMaxConsumersPerTopic_named {ε ν : Type} (env : Env ε ν)
    (NameArg : String) {ns : ν} (hn : env.GetNamespaceName NameArg = .ok ns) :
    doRemoveMaxConsumersPerTopic env NameArg =
      match env.admin (.RemoveMaxConsumersPerTopic ns) with
      | none =>
        ⟨[.NewPulsarClient, .Admin (.RemoveMaxConsumersPerTopic ns),
          .Printf (removeMaxConsumersPerTopicLine (env.nsString ns))], none⟩
      | some err => ⟨[.NewPulsarClient, .Admin (.RemoveMaxConsumersPerTopic ns)], some err⟩ := by
  unfold doRemoveMaxConsumersPerTopic
  simp only [hn]

/-! ## Every run follows one of the paths -/

theorem doSetRetention_cases {ε ν : Type} (env : Env ε ν) (NameArg : String)
    (data : NamespacesData) :
    (∃ e, env.ValidateSizeString data.LimitStr = .error e
        ∧ doSetRetention env NameArg data = ⟨[.NewPulsarClient], some e⟩)
    ∨ (∃ b e, env.ValidateSizeString data.LimitStr = .ok b
        ∧ env.ParseRelativeTimeInSeconds data.RetentionTimeStr = .error e
        ∧ doSetRetention env NameArg data = ⟨[.NewPulsarClient], some e⟩)
    ∨ (∃ b t e, env.ValidateSizeString data.LimitStr = .ok b
        ∧ env.ParseRelativeTimeInSeconds data.RetentionTimeStr = .ok t
        ∧ env.admin (.SetRetention NameArg
            (NewRetentionPolicies (retentionTimeInMin t) (retentionSizeInMB b))) = some e
        ∧ doSetRetention env NameArg data =
          ⟨[.NewPulsarClient, .Admin (.SetRetention NameArg
            (NewRetentionPolicies (retentionTimeInMin t) (retentionSizeInMB b)))], some e⟩)
    ∨ (∃ b t, env.ValidateSizeString data.LimitStr = .ok b
        ∧ env.ParseRelativeTimeInSeconds data.RetentionTimeStr = .ok t
        ∧ env.admin (.SetRetention NameArg
            (NewRetentionPolicies (retentionTimeInMin t) (retentionSizeInMB b))) = none
        ∧ doSetRetention env NameArg data =
          ⟨[.NewPulsarClient, .Admin (.SetRetention NameArg
              (NewRetentionPolicies (retentionTimeInMin t) (retentionSizeInMB b))),
            .Printf (setRetentionLine NameArg (retentionTimeInMin t) (retentionSizeInMB b))],
            none⟩) := by
  cases hs : env.ValidateSizeString data.LimitStr with
  | error e => exact Or.inl ⟨e, rfl, doSetRetention_size_error env NameArg data hs⟩
  | ok b =>
    cases ht : env.ParseRelativeTimeInSeconds data.RetentionTimeStr with
    | error e =>
      exact Or.inr (Or.inl ⟨b, e, rfl, rfl, doSetRetention_time_error env NameArg data hs ht⟩)
    | ok t =>
      cases hr : env.admin (.SetRetention NameArg
          (NewRetentionPolicies (retentionTimeInMin t) (retentionSizeInMB b))) with
      | some e =>
        refine Or.inr (Or.inr (Or.inl ⟨b, t, e, rfl, rfl, hr, ?_⟩))
        rw [doSetRetention_parsed env NameArg data hs ht, hr]
      | none =>
        refine Or.inr (Or.inr (Or.inr ⟨b, t, rfl, rfl, hr, ?_⟩))
        rw [doSetRetention_parsed env NameArg data hs ht, hr]

theorem doDeleteMessageTTL_cases {ε ν : Type} (env : Env ε ν) (NameArg : String) :
    (∃ e, env.admin (.RemoveNamespaceMessageTTL NameArg) = some e
        ∧ doDeleteMessageTTL env NameArg =
          ⟨[.NewPulsarClient, .Admin (.RemoveNamespaceMessageTTL NameArg)], some e⟩)
    ∨ (env.admin (.RemoveNamespaceMessageTTL NameArg) = none
        ∧ doDeleteMessageTTL env NameArg =
          ⟨[.NewPulsarClient, .Admin (.RemoveNamespaceMessageTTL NameArg),
            .Printf (deleteMessageTTLLine NameArg)], none⟩) := by
  cases hr : env.admin (.RemoveNamespaceMessageTTL NameArg) with
  | some e =>
    refine Or.inl ⟨e, rfl, ?_⟩
    unfold doDeleteMessageTTL
    simp only [hr]
  | none =>
    refine Or.inr ⟨rfl, ?_⟩
    unfold doDeleteMessageTTL
    simp only [hr]

theorem doRemoveMaxConsumersPerTopic_cases {ε ν : Type} (env : Env ε ν) (NameArg : String) :
    (∃ e, env.GetNamespaceName NameArg = .error e
        ∧ doRemoveMaxConsumersPerTopic env NameArg = ⟨[], some e⟩)
    ∨ (∃ ns e, env.GetNamespaceName NameArg = .ok ns
        ∧ env.admin (.RemoveMaxConsumersPerTopic ns) = some e
        ∧ doRemoveMaxConsumersPerTopic env NameArg =
          ⟨[.NewPulsarClient, .Admin (.RemoveMaxConsumersPerTopic ns)], some e⟩)
    ∨ (∃ ns, env.GetNamespaceName NameArg = .ok ns
        ∧ env.admin (.RemoveMaxConsumersPerTopic ns) = none
        ∧ doRemoveMaxConsumersPerTopic env NameArg =
          ⟨[.NewPulsarClient, .Admin (.RemoveMaxConsumersPerTopic ns),
            .Printf (removeMaxConsumersPerTopicLine (env.nsString ns))], none⟩) := by
  cases hn : env.GetNamespaceName NameArg with
  | error e => exact Or.inl ⟨e, rfl, doRemoveMaxConsumersPerTopic_name_error env NameArg hn⟩
  | ok ns =>
    cases hr : env.admin (.RemoveMaxConsumersPerTopic ns) with
    | some e =>
      refine Or.inr (Or.inl ⟨ns, e, rfl, hr, ?_⟩)
      rw [doRemoveMaxConsumersPerTopic_named env NameArg hn, hr]
    | none =>
      refine Or.inr (Or.inr ⟨ns, rfl, hr, ?_⟩)
      rw [doRemoveMaxConsumersPerTopic_named env NameArg hn, hr]

/-! ## C1: the retention size (lines 135-139) -/

/-- C1, counterexample: at the parsed byte count `-5` (an `int64` other than `-1`)
the size sent to `SetRetention` is `0`, whereas `floor(-5 / (1024*1024))` is `-1`. -/
theorem C1_floor_fails_at_minus_five :
    isInt64 (-5) ∧ (-5 : Int) ≠ -1
      ∧ adminOps (doSetRetention
            (fixedEnv (.ok (-5)) (.ok (6000 * Second)) (.ok "tenant/namespace") none)
            "tenant/namespace" ⟨"100m", "-5"⟩).trace
          = [.SetRetention "tenant/namespace" ⟨100, 0⟩]
      ∧ ⌊((-5 : ℤ) : ℚ) / (1024 * 1024)⌋ = -1
      ∧ retentionSizeInMB (-5) ≠ ⌊((-5 : ℤ) : ℚ) / (1024 * 1024)⌋ := by
  have hfloor : ⌊((-5 : ℤ) : ℚ) / (1024 * 1024)⌋ = -1 := by
    rw [floor_div_mebibyte]; decide
  have hsize : retentionSizeInMB (-5) = 0 := by decide
  have htime : retentionTimeInMin (6000 * Second) = 100 := by
    rw [retentionTimeInMin_of_seconds (by decide)]; decide
  refine ⟨by decide, by decide, ?_, hfloor, ?_⟩
  · rw [doSetRetention_adminOps _ _ _ rfl rfl, hsize, htime]
    rfl
  · rw [hfloor, hsize]; decide

/-- C1, amended: when both strings parse, with `b` the parsed `int64` byte count, one
`SetRetention` is issued whose size is `-1` if `b = -1` and otherwise the quotient of
`b` by `1024*1024` truncated toward zero; this is `floor(b / (1024*1024))` exactly when
`b` is non-negative or a multiple of `1048576`; `b = 1073741824` gives `1024`. -/
theorem C1_size_truncated_toward_zero {ε ν : Type} (env : Env ε ν) (NameArg : String)
    (data : NamespacesData) (b t : Int)
    (hs : env.ValidateSizeString data.LimitStr = .ok b)
    (ht : env.ParseRelativeTimeInSeconds data.RetentionTimeStr = .ok t)
    (hb : isInt64 b) :
    ∃ policy : RetentionPolicies,
      adminOps (doSetRetention env NameArg data).trace = [.SetRetention NameArg policy]
        ∧ (b = -1 → policy.RetentionSizeInMB = -1)
        ∧ (b ≠ -1 → policy.RetentionSizeInMB = Int.tdiv b (1024 * 1024))
        ∧ (b ≠ -1 → (policy.RetentionSizeInMB = ⌊(b : ℚ) / (1024 * 1024)⌋
              ↔ (0 ≤ b ∨ b % 1048576 = 0)))
        ∧ (b = 1073741824 → policy.RetentionSizeInMB = 1024) := by
  refine ⟨NewRetentionPolicies (retentionTimeInMin t) (retentionSizeInMB b),
    doSetRetention_adminOps env NameArg data hs ht, ?_, ?_, ?_, ?_⟩
  · intro h
    subst h
    show retentionSizeInMB (-1) = -1
    decide
  · intro h
    exact retentionSizeInMB_eq_tdiv hb h
  · intro h
    show retentionSizeInMB b = _ ↔ _
    rw [floor_div_mebibyte]
    rcases le_or_lt 0 b with h0 | h0
    · rw [retentionSizeInMB_of_nonneg hb h0]
      constructor
      · intro _; exact Or.inl h0
      · intro _; rfl
    · rw [retentionSizeInMB_of_neg hb h0 h]
      constructor
      · intro hq; right; omega
      · intro hq
        rcases hq with hq | hq
        · omega
        · omega
  · intro h
    subst h
    show retentionSizeInMB 1073741824 = 1024
    decide

/-- C1, instance: the flags `--time 100m --size 1G`. -/
theorem C1_size_truncated_toward_zero_witness :
    isInt64 1073741824
      ∧ ∃ policy : RetentionPolicies,
        adminOps (doSetRetention
            (fixedEnv (.ok 1073741824) (.ok (6000 * Second)) (.ok "tenant/namespace") none)
            "tenant/namespace" flags100m1G).trace
          = [.SetRetention "tenant/namespace" policy]
        ∧ ((1073741824 : Int) = -1 → policy.RetentionSizeInMB = -1)
        ∧ ((1073741824 : Int) ≠ -1 →
            policy.RetentionSizeInMB = Int.tdiv 1073741824 (1024 * 1024))
        ∧ ((1073741824 : Int) ≠ -1 →
            (policy.RetentionSizeInMB = ⌊((1073741824 : Int) : ℚ) / (1024 * 1024)⌋
              ↔ ((0 : Int) ≤ 1073741824 ∨ (1073741824 : Int) % 1048576 = 0)))
        ∧ ((1073741824 : Int) = 1073741824 → policy.RetentionSizeInMB = 1024) :=
  ⟨by decide,
    C1_size_truncated_toward_zero
      (fixedEnv (.ok 1073741824) (.ok (6000 * Second)) (.ok "tenant/namespace") none)
      "tenant/namespace" flags100m1G 1073741824 (6000 * Second) rfl rfl (by decide)⟩

/-! ## C2: the retention time (lines 129-133) -/

/-- C2, counterexample: for a parsed retention time of `-61` seconds the minutes sent to
`SetRetention` are `-1`, whereas `floor(-61 / 60)` is `-2`; reading `-61` as the raw
value of the parsed `time.Duration` instead, the minutes are `0`, again not `-2`. -/
theorem C2_floor_fails_at_minus_61 :
    adminOps (doSetRetention
          (fixedEnv (.ok 1073741824) (.ok (-61 * Second)) (.ok "tenant/namespace") none)
          "tenant/namespace" ⟨"-61s", "1G"⟩).trace
        = [.SetRetention "tenant/namespace" ⟨-1, 1024⟩]
      ∧ ⌊((-61 : ℤ) : ℚ) / 60⌋ = -2
      ∧ retentionTimeInMin (-61 * Second) ≠ ⌊((-61 : ℤ) : ℚ) / 60⌋
      ∧ retentionTimeInMin (-61) = 0
      ∧ retentionTimeInMin (-61) ≠ ⌊((-61 : ℤ) : ℚ) / 60⌋ := by
  have hfloor : ⌊((-61 : ℤ) : ℚ) / 60⌋ = -2 := by
    rw [floor_div_sixty]; decide
  have hsize : retentionSizeInMB 1073741824 = 1024 := by decide
  have htime : retentionTimeInMin (-61 * Second) = -1 := by
    rw [retentionTimeInMin_of_seconds (by decide)]; decide
  have hraw : retentionTimeInMin (-61) = 0 :=
    retentionTimeInMin_of_small (by decide) (by decide)
  refine ⟨?_, hfloor, ?_, hraw, ?_⟩
  · rw [doSetRetention_adminOps _ _ _ rfl rfl, hsize, htime]
    rfl
  · rw [hfloor, htime]; decide
  · rw [hfloor, hraw]; decide

/-- C2, amended: when both strings parse, with `t` the parsed `time.Duration`, one
`SetRetention` is issued whose time is `-1` minutes if `t` is the raw value `-1`, and,
if `t` is a duration of `s` whole seconds, `s / 60` truncated toward zero; this is
`floor(s / 60)` exactly when `s` is non-negative or a multiple of `60`; a duration of
`6000` seconds gives `100`. -/
theorem C2_time_truncated_toward_zero {ε ν : Type} (env : Env ε ν) (NameArg : String)
    (data : NamespacesData) (b t : Int)
    (hs : env.ValidateSizeString data.LimitStr = .ok b)
    (ht : env.ParseRelativeTimeInSeconds data.RetentionTimeStr = .ok t) :
    ∃ policy : RetentionPolicies,
      adminOps (doSetRetention env NameArg data).trace = [.SetRetention NameArg policy]
        ∧ (t = -1 → policy.RetentionTimeInMinutes = -1)
        ∧ (∀ s : ℤ, |s| ≤ 9223372036 → t = s * Second →
            policy.RetentionTimeInMinutes = Int.tdiv s 60
            ∧ (policy.RetentionTimeInMinutes = ⌊(s : ℚ) / 60⌋ ↔ (0 ≤ s ∨ s % 60 = 0)))
        ∧ (t = 6000 * Second → policy.RetentionTimeInMinutes = 100) := by
  refine ⟨NewRetentionPolicies (retentionTimeInMin t) (retentionSizeInMB b),
    doSetRetention_adminOps env NameArg data hs ht, ?_, ?_, ?_⟩
  · intro h
    subst h
    show retentionTimeInMin (-1) = -1
    unfold retentionTimeInMin
    rw [if_neg (by decide)]
  · intro s hsr hts
    subst hts
    have hmin : retentionTimeInMin (s * Second) = Int.tdiv s 60 :=
      retentionTimeInMin_of_seconds hsr
    refine ⟨hmin, ?_⟩
    show retentionTimeInMin (s * Second) = _ ↔ _
    rw [hmin, floor_div_sixty]
    rcases le_or_lt 0 s with h0 | h0
    · rw [tdiv_of_nonneg h0 (by norm_num)]
      constructor
      · intro _; exact Or.inl h0
      · intro _; rfl
    · rw [tdiv_of_nonpos (le_of_lt h0) (by norm_num)]
      constructor
      · intro hq; right; omega
      · intro hq
        rcases hq with hq | hq
        · omega
        · omega
  · intro h
    subst h
    show retentionTimeInMin (6000 * Second) = 100
    rw [retentionTimeInMin_of_seconds (by decide)]
    decide

/-- C2, instance: the flags `--time 100m --size 1G`, the time parsed as 6000 seconds. -/
theorem C2_time_truncated_toward_zero_witness :
    ∃ policy : RetentionPolicies,
      adminOps (doSetRetention
          (fixedEnv (.ok 1073741824) (.ok (6000 * Second)) (.ok "tenant/namespace") none)
          "tenant/namespace" flags100m1G).trace
        = [.SetRetention "tenant/namespace" policy]
      ∧ (6000 * Second = -1 → policy.RetentionTimeInMinutes = -1)
      ∧ (∀ s : ℤ, |s| ≤ 9223372036 → 6000 * Second = s * Second →
          policy.RetentionTimeInMinutes = Int.tdiv s 60
          ∧ (policy.RetentionTimeInMinutes = ⌊(s : ℚ) / 60⌋ ↔ (0 ≤ s ∨ s % 60 = 0)))
      ∧ (6000 * Second = 6000 * Second → policy.RetentionTimeInMinutes = 100) :=
  C2_time_truncated_toward_zero
    (fixedEnv (.ok 1073741824) (.ok (6000 * Second)) (.ok "tenant/namespace") none)
    "tenant/namespace" flags100m1G 1073741824 (6000 * Second) rfl rfl

/-! ## C3: sizes below one megabyte -/

/-- C3: a parsed size limit `b` with `0 ≤ b < 1048576` gives a retention size of `0` MB
(never `1`), and `b = -1` gives `-1`; these are the sizes sent to `SetRetention`. -/
theorem C3_below_one_megabyte_is_zero {ε ν : Type} (env : Env ε ν) (NameArg : String)
    (data : NamespacesData) (b t : Int)
    (hs : env.ValidateSizeString data.LimitStr = .ok b)
    (ht : env.ParseRelativeTimeInSeconds data.RetentionTimeStr = .ok t) :
    (0 ≤ b → b < 1048576 →
        retentionSizeInMB b = 0 ∧ retentionSizeInMB b ≠ 1
        ∧ adminOps (doSetRetention env NameArg data).trace
          = [.SetRetention NameArg (NewRetentionPolicies (retentionTimeInMin t) 0)])
      ∧ (b = -1 →
        retentionSizeInMB b = -1
        ∧ adminOps (doSetRetention env NameArg data).trace
          = [.SetRetention NameArg (NewRetentionPolicies (retentionTimeInMin t) (-1))]) := by
  constructor
  · intro h0 h1
    have hI : isInt64 b := by unfold isInt64; omega
    have hz : retentionSizeInMB b = 0 := by
      rw [retentionSizeInMB_of_nonneg hI h0]; omega
    refine ⟨hz, by rw [hz]; decide, ?_⟩
    rw [doSetRetention_adminOps env NameArg data hs ht, hz]
  · intro h
    have hz : retentionSizeInMB b = -1 := by subst h; decide
    refine ⟨hz, ?_⟩
    rw [doSetRetention_adminOps env NameArg data hs ht, hz]

/-- C3, instances: the byte counts `1048575` and `-1`. -/
theorem C3_below_one_megabyte_is_zero_witness :
    (retentionSizeInMB 1048575 = 0 ∧ retentionSizeInMB 1048575 ≠ 1
      ∧ adminOps (doSetRetention
          (fixedEnv (.ok 1048575) (.ok (-1)) (.ok "tenant/namespace") none)
          "tenant/namespace" ⟨"-1", "1048575"⟩).trace
        = [.SetRetention "tenant/namespace" (NewRetentionPolicies (retentionTimeInMin (-1)) 0)])
    ∧ (retentionSizeInMB (-1) = -1
      ∧ adminOps (doSetRetention
          (fixedEnv (.ok (-1)) (.ok (-1)) (.ok "tenant/namespace") none)
          "tenant/namespace" ⟨"-1", "-1"⟩).trace
        = [.SetRetention "tenant/namespace"
            (NewRetentionPolicies (retentionTimeInMin (-1)) (-1))]) :=
  ⟨(C3_below_one_megabyte_is_zero
      (fixedEnv (.ok 1048575) (.ok (-1)) (.ok "tenant/namespace") none)
      "tenant/namespace" ⟨"-1", "1048575"⟩ 1048575 (-1) rfl rfl).1 (by decide) (by decide),
   (C3_below_one_megabyte_is_zero
      (fixedEnv (.ok (-1)) (.ok (-1)) (.ok "tenant/namespace") none)
      "tenant/namespace" ⟨"-1", "-1"⟩ (-1) (-1) rfl rfl).2 rfl⟩

/-! ## C4: the success line of `doSetRetention` -/

/-- C4: whatever the parsers return, if a `SetRetention` was issued and answered with a
nil error then it carried `NameArg` and some minutes `M` and megabytes `S`, and the
handler printed exactly the line built from `NameArg`, `M` and `S`, newline included;
with parser results 6000 seconds and 1073741824 bytes the call carries `(100, 1024)`
and the line reads `time = 100 min, size = 1024 MB`. -/
theorem C4_success_line_shows_sent_values {ε ν : Type} (env : Env ε ν) (NameArg : String)
    (data : NamespacesData) :
    (∀ op : AdminOp ν, Event.Admin op ∈ (doSetRetention env NameArg data).trace →
        env.admin op = none →
        ∃ M S : Int, op = .SetRetention NameArg (NewRetentionPolicies M S)
          ∧ (doSetRetention env NameArg data).err = none
          ∧ printed (doSetRetention env NameArg data).trace =
            ["Set retention successfully for [" ++ NameArg
              ++ "]. The retention policy is: time = " ++ fmtD M
              ++ " min, size = " ++ fmtD S ++ " MB\n"])
      ∧ (env.ValidateSizeString data.LimitStr = .ok 1073741824 →
          env.ParseRelativeTimeInSeconds data.RetentionTimeStr = .ok (6000 * Second) →
          adminOps (doSetRetention env NameArg data).trace
              = [.SetRetention NameArg (NewRetentionPolicies 100 1024)]
            ∧ (env.admin (.SetRetention NameArg (NewRetentionPolicies 100 1024)) = none →
              printed (doSetRetention env NameArg data).trace =
                ["Set retention successfully for [" ++ NameArg
                  ++ "]. The retention policy is: time = 100 min, size = 1024 MB\n"])) := by
  constructor
  · intro op hmem hresp
    cases hs : env.ValidateSizeString data.LimitStr with
    | error e =>
      rw [doSetRetention_size_error env NameArg data hs] at hmem
      simp at hmem
    | ok b =>
      cases ht : env.ParseRelativeTimeInSeconds data.RetentionTimeStr with
      | error e =>
        rw [doSetRetention_time_error env NameArg data hs ht] at hmem
        simp at hmem
      | ok t =>
        rw [doSetRetention_parsed env NameArg data hs ht] at hmem ⊢
        cases hr : env.admin (.SetRetention NameArg
            (NewRetentionPolicies (retentionTimeInMin t) (retentionSizeInMB b))) with
        | none =>
          rw [hr] at hmem
          refine ⟨retentionTimeInMin t, retentionSizeInMB b, ?_, rfl, rfl⟩
          simp at hmem
          exact hmem
        | some e =>
          rw [hr] at hmem
          simp at hmem
          rw [hmem, hr] at hresp
          cases hresp
  · intro hs ht
    have hsize : retentionSizeInMB 1073741824 = 1024 := by decide
    have htime : retentionTimeInMin (6000 * Second) = 100 := by
      rw [retentionTimeInMin_of_seconds (by decide)]; decide
    refine ⟨?_, ?_⟩
    · rw [doSetRetention_adminOps env NameArg data hs ht, hsize, htime]
    · intro hr
      rw [doSetRetention_parsed env NameArg data hs ht, hsize, htime, hr]
      show [setRetentionLine NameArg 100 1024] = _
      unfold setRetentionLine
      have h100 : fmtD 100 = "100" := by decide
      have h1024 : fmtD 1024 = "1024" := by decide
      rw [h100, h1024]
      simp only [String.append_assoc]
      rfl

/-- C4, instance: `--time 100m --size 1G` on `tenant/namespace`, the call succeeding. -/
theorem C4_success_line_shows_sent_values_witness :
    adminOps (doSetRetention
        (fixedEnv (.ok 1073741824) (.ok (6000 * Second)) (.ok "tenant/namespace") none)
        "tenant/namespace" flags100m1G).trace
      = [.SetRetention "tenant/namespace" (NewRetentionPolicies 100 1024)]
    ∧ printed (doSetRetention
        (fixedEnv (.ok 1073741824) (.ok (6000 * Second)) (.ok "tenant/namespace") none)
        "tenant/namespace" flags100m1G).trace
      = ["Set retention successfully for [" ++ "tenant/namespace"
          ++ "]. The retention policy is: time = 100 min, size = 1024 MB\n"] :=
  ⟨((C4_success_line_shows_sent_values
      (fixedEnv (.ok 1073741824) (.ok (6000 * Second)) (.ok "tenant/namespace") none)
      "tenant/namespace" flags100m1G).2 rfl rfl).1,
   ((C4_success_line_shows_sent_values
      (fixedEnv (.ok 1073741824) (.ok (6000 * Second)) (.ok "tenant/namespace") none)
      "tenant/namespace" flags100m1G).2 rfl rfl).2 rfl⟩

/-! ## C5: output only after a nil response -/

/-- C5: in each of the three handlers, if an administrative operation was invoked and
answered with a nil error then exactly the handler's confirmation line is written (the
text of its format string filled with the namespace name and, for `set-retention`, the
computed minutes and megabytes); if anything is written then an administrative operation
was invoked and answered with a nil error; and whenever the handler returns a non-nil
error nothing is written. -/
theorem C5_confirmation_iff_nil_response {ε ν : Type} (env : Env ε ν) (NameArg : String)
    (data : NamespacesData) :
    (((∃ op, op ∈ adminOps (doSetRetention env NameArg data).trace ∧ env.admin op = none) →
          ∃ b t, env.ValidateSizeString data.LimitStr = .ok b
            ∧ env.ParseRelativeTimeInSeconds data.RetentionTimeStr = .ok t
            ∧ printed (doSetRetention env NameArg data).trace =
              ["Set retention successfully for [" ++ NameArg
                ++ "]. The retention policy is: time = " ++ fmtD (retentionTimeInMin t)
                ++ " min, size = " ++ fmtD (retentionSizeInMB b) ++ " MB\n"])
        ∧ (printed (doSetRetention env NameArg data).trace ≠ []
          ↔ ∃ op, op ∈ adminOps (doSetRetention env NameArg data).trace ∧ env.admin op = none)
        ∧ ((doSetRetention env NameArg data).err ≠ none →
            printed (doSetRetention env NameArg data).trace = []))
      ∧ (((∃ op, op ∈ adminOps (doDeleteMessageTTL env NameArg).trace
              ∧ env.admin op = none) →
          printed (doDeleteMessageTTL env NameArg).trace =
            ["Successfully removed Message TTL setting for namespace " ++ NameArg ++ "\n"])
        ∧ (printed (doDeleteMessageTTL env NameArg).trace ≠ []
          ↔ ∃ op, op ∈ adminOps (doDeleteMessageTTL env NameArg).trace ∧ env.admin op = none)
        ∧ ((doDeleteMessageTTL env NameArg).err ≠ none →
            printed (doDeleteMessageTTL env NameArg).trace = []))
      ∧ (((∃ op, op ∈ adminOps (doRemoveMaxConsumersPerTopic env NameArg).trace
              ∧ env.admin op = none) →
          ∃ ns, env.GetNamespaceName NameArg = .ok ns
            ∧ printed (doRemoveMaxConsumersPerTopic env NameArg).trace =
              ["Successfully removed the max consumers per topic setting for namespace "
                ++ env.nsString ns ++ "\n"])
        ∧ (printed (doRemoveMaxConsumersPerTopic env NameArg).trace ≠ []
          ↔ ∃ op, op ∈ adminOps (doRemoveMaxConsumersPerTopic env NameArg).trace
              ∧ env.admin op = none)
        ∧ ((doRemoveMaxConsumersPerTopic env NameArg).err ≠ none →
            printed (doRemoveMaxConsumersPerTopic env NameArg).trace = [])) := by
  refine ⟨?_, ?_, ?_⟩
  · rcases doSetRetention_cases env NameArg data with
      ⟨e, _, h⟩ | ⟨b, e, _, _, h⟩ | ⟨b, t, e, _, _, hr, h⟩ | ⟨b, t, hs, ht, hr, h⟩
    · rw [h]; simp [printed, adminOps]
    · rw [h]; simp [printed, adminOps]
    · rw [h]; simp [printed, adminOps, hr]
    · rw [h]
      refine ⟨fun _ => ⟨b, t, hs, ht, rfl⟩, ?_, ?_⟩
      · simp [printed, adminOps, hr]
      · simp [printed]
  · rcases doDeleteMessageTTL_cases env NameArg with ⟨e, hr, h⟩ | ⟨hr, h⟩
    · rw [h]; simp [printed, adminOps, hr]
    · rw [h]
      refine ⟨fun _ => rfl, ?_, ?_⟩
      · simp [printed, adminOps, hr]
      · simp [printed]
  · rcases doRemoveMaxConsumersPerTopic_cases env NameArg with
      ⟨e, _, h⟩ | ⟨ns, e, _, hr, h⟩ | ⟨ns, hn, hr, h⟩
    · rw [h]; simp [printed, adminOps]
    · rw [h]; simp [printed, adminOps, hr]
    · rw [h]
      refine ⟨fun _ => ⟨ns, hn, rfl⟩, ?_, ?_⟩
      · simp [printed, adminOps, hr]
      · simp [printed]

/-- C5, instances: `remove-message-ttl` and `remove-max-consumers-per-topic` answered
with nil write their confirmation line; `set-retention` answered with an error writes
nothing. -/
theorem C5_confirmation_iff_nil_response_witness :
    printed (doDeleteMessageTTL
        (fixedEnv (.ok 1073741824) (.ok (-1)) (.ok "tenant/namespace") none)
        "tenant/namespace").trace
      = ["Successfully removed Message TTL setting for namespace tenant/namespace\n"]
    ∧ (∃ ns, (fixedEnv (.ok 1073741824) (.ok (-1)) (.ok "tenant/namespace")
            none).GetNamespaceName "tenant/namespace" = .ok ns
        ∧ printed (doRemoveMaxConsumersPerTopic
            (fixedEnv (.ok 1073741824) (.ok (-1)) (.ok "tenant/namespace") none)
            "tenant/namespace").trace
          = ["Successfully removed the max consumers per topic setting for namespace "
              ++ (fixedEnv (.ok 1073741824) (.ok (-1)) (.ok "tenant/namespace")
                none).nsString ns ++ "\n"])
    ∧ printed (doSetRetention
        (fixedEnv (.ok 1073741824) (.ok (-1)) (.ok "tenant/namespace")
          (some "code: 404 reason: Tenant does not exist"))
        "tenant/namespace" ⟨"-1", "1G"⟩).trace = [] :=
  ⟨((C5_confirmation_iff_nil_response
      (fixedEnv (.ok 1073741824) (.ok (-1)) (.ok "tenant/namespace") none)
      "tenant/namespace" ⟨"-1", "1G"⟩).2.1.1
        ⟨.RemoveNamespaceMessageTTL "tenant/namespace", by decide, rfl⟩).trans (by decide),
   (C5_confirmation_iff_nil_response
      (fixedEnv (.ok 1073741824) (.ok (-1)) (.ok "tenant/namespace") none)
      "tenant/namespace" ⟨"-1", "1G"⟩).2.2.1
        ⟨.RemoveMaxConsumersPerTopic "tenant/namespace", by decide, rfl⟩,
   (C5_confirmation_iff_nil_response
      (fixedEnv (.ok 1073741824) (.ok (-1)) (.ok "tenant/namespace")
        (some "code: 404 reason: Tenant does not exist"))
      "tenant/namespace" ⟨"-1", "1G"⟩).1.2.2 (by decide)⟩

/-! ## C6: errors are returned as they are -/

/-- C6: in each of the three handlers an error returned by a collaborator (size parser,
time parser, namespace-name parser, administrative operation) is the handler's return
value, unchanged, and the handler returns nil only when the administrative operation
was invoked and returned nil. -/
theorem C6_errors_returned_unmodified {ε ν : Type} (env : Env ε ν) (NameArg : String)
    (data : NamespacesData) :
    ((∀ e, env.ValidateSizeString data.LimitStr = .error e →
          (doSetRetention env NameArg data).err = some e)
        ∧ (∀ b e, env.ValidateSizeString data.LimitStr = .ok b →
            env.ParseRelativeTimeInSeconds data.RetentionTimeStr = .error e →
            (doSetRetention env NameArg data).err = some e)
        ∧ (∀ b t e, env.ValidateSizeString data.LimitStr = .ok b →
            env.ParseRelativeTimeInSeconds data.RetentionTimeStr = .ok t →
            env.admin (.SetRetention NameArg
              (NewRetentionPolicies (retentionTimeInMin t) (retentionSizeInMB b))) = some e →
            (doSetRetention env NameArg data).err = some e)
        ∧ ((doSetRetention env NameArg data).err = none →
            ∃ op, op ∈ adminOps (doSetRetention env NameArg data).trace
              ∧ env.admin op = none))
      ∧ ((∀ e, env.admin (.RemoveNamespaceMessageTTL NameArg) = some e →
            (doDeleteMessageTTL env NameArg).err = some e)
        ∧ ((doDeleteMessageTTL env NameArg).err = none →
            ∃ op, op ∈ adminOps (doDeleteMessageTTL env NameArg).trace
              ∧ env.admin op = none))
      ∧ ((∀ e, env.GetNamespaceName NameArg = .error e →
            (doRemoveMaxConsumersPerTopic env NameArg).err = some e)
        ∧ (∀ ns e, env.GetNamespaceName NameArg = .ok ns →
            env.admin (.RemoveMaxConsumersPerTopic ns) = some e →
            (doRemoveMaxConsumersPerTopic env NameArg).err = some e)
        ∧ ((doRemoveMaxConsumersPerTopic env NameArg).err = none →
            ∃ op, op ∈ adminOps (doRemoveMaxConsumersPerTopic env NameArg).trace
              ∧ env.admin op = none)) := by
  refine ⟨⟨?_, ?_, ?_, ?_⟩, ⟨?_, ?_⟩, ⟨?_, ?_, ?_⟩⟩
  · intro e hs
    rw [doSetRetention_size_error env NameArg data hs]
  · intro b e hs ht
    rw [doSetRetention_time_error env NameArg data hs ht]
  · intro b t e hs ht hr
    rw [doSetRetention_parsed env NameArg data hs ht, hr]
  · rcases doSetRetention_cases env NameArg data with
      ⟨e, _, h⟩ | ⟨b, e, _, _, h⟩ | ⟨b, t, e, _, _, hr, h⟩ | ⟨b, t, _, _, hr, h⟩
    · rw [h]; simp
    · rw [h]; simp
    · rw [h]; simp
    · rw [h]; simp [adminOps, hr]
  · intro e hr
    rcases doDeleteMessageTTL_cases env NameArg with ⟨e2, hr2, h⟩ | ⟨hr2, h⟩
    · rw [h, ← hr, hr2]
    · rw [hr2] at hr; cases hr
  · rcases doDeleteMessageTTL_cases env NameArg with ⟨e, hr, h⟩ | ⟨hr, h⟩
    · rw [h]; simp
    · rw [h]; simp [adminOps, hr]
  · intro e hn
    rw [doRemoveMaxConsumersPerTopic_name_error env NameArg hn]
  · intro ns e hn hr
    rw [doRemoveMaxConsumersPerTopic_named env NameArg hn, hr]
  · rcases doRemoveMaxConsumersPerTopic_cases env NameArg with
      ⟨e, _, h⟩ | ⟨ns, e, _, hr, h⟩ | ⟨ns, _, hr, h⟩
    · rw [h]; simp
    · rw [h]; simp
    · rw [h]; simp [adminOps, hr]
/-- C6, instances: a size error, a time error, a remote error and a name error come
back as they are. -/
theorem C6_errors_returned_unmodified_witness :
    (doSetRetention
        (fixedEnv (.error "invalid size") (.error "invalid time") (.ok "tenant/namespace") none)
        "tenant/namespace" ⟨"xyz", "abc"⟩).err = some "invalid size"
    ∧ (doSetRetention
        (fixedEnv (.ok 0) (.error "invalid time") (.ok "tenant/namespace") none)
        "tenant/namespace" ⟨"xyz", "0"⟩).err = some "invalid time"
    ∧ (doDeleteMessageTTL
        (fixedEnv (.ok 0) (.ok 0) (.ok "tenant/namespace")
          (some "code: 404 reason: Tenant does not exist"))
        "tenant/namespace").err = some "code: 404 reason: Tenant does not exist"
    ∧ (doRemoveMaxConsumersPerTopic
        (fixedEnv (.ok 0) (.ok 0) (.error "invalid namespace name") none)
        "tenant").err = some "invalid namespace name" :=
  ⟨(C6_errors_returned_unmodified
      (fixedEnv (.error "invalid size") (.error "invalid time") (.ok "tenant/namespace") none)
      "tenant/namespace" ⟨"xyz", "abc"⟩).1.1 "invalid size" rfl,
   (C6_errors_returned_unmodified
      (fixedEnv (.ok 0) (.error "invalid time") (.ok "tenant/namespace") none)
      "tenant/namespace" ⟨"xyz", "0"⟩).1.2.1 0 "invalid time" rfl rfl,
   (C6_errors_returned_unmodified
      (fixedEnv (.ok 0) (.ok 0) (.ok "tenant/namespace")
        (some "code: 404 reason: Tenant does not exist"))
      "tenant/namespace" ⟨"0s", "0"⟩).2.1.1 "code: 404 reason: Tenant does not exist" rfl,
   (C6_errors_returned_unmodified
      (fixedEnv (.ok 0) (.ok 0) (.error "invalid namespace name") none)
      "tenant" ⟨"0s", "0"⟩).2.2.1 "invalid namespace name" rfl⟩

/-! ## C7: the documented output of `remove-message-ttl` -/

/-- C7: for `tenant/namespace` and a successful remote call `doDeleteMessageTTL` writes
"Successfully removed Message TTL setting for namespace tenant/namespace" and a newline,
which is not the "normal output" the command documents, with or without the newline. -/
theorem C7_printed_line_differs_from_documented :
    printed (doDeleteMessageTTL
        (fixedEnv (.ok 0) (.ok 0) (.ok "tenant/namespace") none) "tenant/namespace").trace
      = ["Successfully removed Message TTL setting for namespace tenant/namespace\n"]
    ∧ RemoveMessageTTL_successOut = "Successfully removed message TTL for [tenant/namespace]"
    ∧ "Successfully removed Message TTL setting for namespace tenant/namespace\n"
        ≠ RemoveMessageTTL_successOut
    ∧ "Successfully removed Message TTL setting for namespace tenant/namespace\n"
        ≠ RemoveMessageTTL_successOut ++ "\n" := by
  refine ⟨by decide, rfl, by decide, by decide⟩

/-! ## C8: one administrative operation -/

/-- C8: each handler performs at most one administrative operation per invocation, and
on success exactly one, of its own kind, placed in the run before the single
confirmation line. -/
theorem C8_at_most_one_admin_operation {ε ν : Type} (env : Env ε ν) (NameArg : String)
    (data : NamespacesData) :
    ((adminOps (doSetRetention env NameArg data).trace).length ≤ 1
        ∧ ((doSetRetention env NameArg data).err = none →
            ∃ policy line, (doSetRetention env NameArg data).trace =
              [.NewPulsarClient, .Admin (.SetRetention NameArg policy), .Printf line]))
      ∧ ((adminOps (doDeleteMessageTTL env NameArg).trace).length ≤ 1
        ∧ ((doDeleteMessageTTL env NameArg).err = none →
            ∃ line, (doDeleteMessageTTL env NameArg).trace =
              [.NewPulsarClient, .Admin (.RemoveNamespaceMessageTTL NameArg), .Printf line]))
      ∧ ((adminOps (doRemoveMaxConsumersPerTopic env NameArg).trace).length ≤ 1
        ∧ ((doRemoveMaxConsumersPerTopic env NameArg).err = none →
            ∃ ns line, env.GetNamespaceName NameArg = .ok ns
              ∧ (doRemoveMaxConsumersPerTopic env NameArg).trace =
                [.NewPulsarClient, .Admin (.RemoveMaxConsumersPerTopic ns), .Printf line])) := by
  refine ⟨?_, ?_, ?_⟩
  · rcases doSetRetention_cases env NameArg data with
      ⟨e, _, h⟩ | ⟨b, e, _, _, h⟩ | ⟨b, t, e, _, _, hr, h⟩ | ⟨b, t, _, _, hr, h⟩
    · rw [h]; simp [adminOps]
    · rw [h]; simp [adminOps]
    · rw [h]; simp [adminOps]
    · rw [h]; simp [adminOps]
  · rcases doDeleteMessageTTL_cases env NameArg with ⟨e, hr, h⟩ | ⟨hr, h⟩
    · rw [h]; simp [adminOps]
    · rw [h]; simp [adminOps]
  · rcases doRemoveMaxConsumersPerTopic_cases env NameArg with
      ⟨e, _, h⟩ | ⟨ns, e, _, hr, h⟩ | ⟨ns, hn, hr, h⟩
    · rw [h]; simp [adminOps]
    · rw [h]; simp [adminOps]
    · rw [h]; simp [adminOps, hn]

/-- C8, instance: a successful `remove-max-consumers-per-topic`. -/
theorem C8_at_most_one_admin_operation_witness :
    ∃ ns line,
      (fixedEnv (.ok 0) (.ok 0) (.ok "tenant/namespace") none).GetNamespaceName
          "tenant/namespace" = .ok ns
      ∧ (doRemoveMaxConsumersPerTopic
          (fixedEnv (.ok 0) (.ok 0) (.ok "tenant/namespace") none) "tenant/namespace").trace =
        [.NewPulsarClient, .Admin (.RemoveMaxConsumersPerTopic ns), .Printf line] :=
  (C8_at_most_one_admin_operation
    (fixedEnv (.ok 0) (.ok 0) (.ok "tenant/namespace") none)
    "tenant/namespace" ⟨"0s", "0"⟩).2.2.2 rfl

/-! ## C9: validation failures -/

/-- C9: if the size parser fails (whatever the time string), or the size parser
succeeds and the time parser fails, `doSetRetention` performs no administrative
operation, prints nothing and returns that parser's error; if `GetNamespaceName`
fails, `doRemoveMaxConsumersPerTopic` performs no administrative operation, prints
nothing and returns that error. -/
theorem C9_validation_failure_stops_before_remote_call {ε ν : Type} (env : Env ε ν)
    (NameArg : String) (data : NamespacesData) :
    (∀ e, env.ValidateSizeString data.LimitStr = .error e →
        adminOps (doSetRetention env NameArg data).trace = []
        ∧ printed (doSetRetention env NameArg data).trace = []
        ∧ (doSetRetention env NameArg data).err = some e)
      ∧ (∀ b e, env.ValidateSizeString data.LimitStr = .ok b →
          env.ParseRelativeTimeInSeconds data.RetentionTimeStr = .error e →
          adminOps (doSetRetention env NameArg data).trace = []
          ∧ printed (doSetRetention env NameArg data).trace = []
          ∧ (doSetRetention env NameArg data).err = some e)
      ∧ (∀ e, env.GetNamespaceName NameArg = .error e →
          adminOps (doRemoveMaxConsumersPerTopic env NameArg).trace = []
          ∧ printed (doRemoveMaxConsumersPerTopic env NameArg).trace = []
          ∧ (doRemoveMaxConsumersPerTopic env NameArg).err = some e) := by
  refine ⟨?_, ?_, ?_⟩
  · intro e hs
    rw [doSetRetention_size_error env NameArg data hs]
    exact ⟨rfl, rfl, rfl⟩
  · intro b e hs ht
    rw [doSetRetention_time_error env NameArg data hs ht]
    exact ⟨rfl, rfl, rfl⟩
  · intro e hn
    rw [doRemoveMaxConsumersPerTopic_name_error env NameArg hn]
    exact ⟨rfl, rfl, rfl⟩

/-- C9, instances: both strings malformed (the size error is returned), only the time
string malformed, and a malformed namespace name. -/
theorem C9_validation_failure_stops_before_remote_call_witness :
    (adminOps (doSetRetention
          (fixedEnv (.error "invalid size") (.error "invalid time") (.ok "tenant/namespace")
            none) "tenant/namespace" ⟨"xyz", "abc"⟩).trace = []
      ∧ printed (doSetRetention
          (fixedEnv (.error "invalid size") (.error "invalid time") (.ok "tenant/namespace")
            none) "tenant/namespace" ⟨"xyz", "abc"⟩).trace = []
      ∧ (doSetRetention
          (fixedEnv (.error "invalid size") (.error "invalid time") (.ok "tenant/namespace")
            none) "tenant/namespace" ⟨"xyz", "abc"⟩).err = some "invalid size")
    ∧ (adminOps (doSetRetention
          (fixedEnv (.ok 0) (.error "invalid time") (.ok "tenant/namespace") none)
          "tenant/namespace" ⟨"xyz", "0"⟩).trace = []
      ∧ printed (doSetRetention
          (fixedEnv (.ok 0) (.error "invalid time") (.ok "tenant/namespace") none)
          "tenant/namespace" ⟨"xyz", "0"⟩).trace = []
      ∧ (doSetRetention
          (fixedEnv (.ok 0) (.error "invalid time") (.ok "tenant/namespace") none)
          "tenant/namespace" ⟨"xyz", "0"⟩).err = some "invalid time")
    ∧ (adminOps (doRemoveMaxConsumersPerTopic
          (fixedEnv (.ok 0) (.ok 0) (.error "invalid namespace name") none)
          "tenant").trace = []
      ∧ printed (doRemoveMaxConsumersPerTopic
          (fixedEnv (.ok 0) (.ok 0) (.error "invalid namespace name") none)
          "tenant").trace = []
      ∧ (doRemoveMaxConsumersPerTopic
          (fixedEnv (.ok 0) (.ok 0) (.error "invalid namespace name") none)
          "tenant").err = some "invalid namespace name") :=
  ⟨(C9_validation_failure_stops_before_remote_call
      (fixedEnv (.error "invalid size") (.error "invalid time") (.ok "tenant/namespace") none)
      "tenant/namespace" ⟨"xyz", "abc"⟩).1 "invalid size" rfl,
   (C9_validation_failure_stops_before_remote_call
      (fixedEnv (.ok 0) (.error "invalid time") (.ok "tenant/namespace") none)
      "tenant/namespace" ⟨"xyz", "0"⟩).2.1 0 "invalid time" rfl rfl,
   (C9_validation_failure_stops_before_remote_call
      (fixedEnv (.ok 0) (.ok 0) (.error "invalid namespace name") none)
      "tenant" ⟨"0s", "0"⟩).2.2 "invalid namespace name" rfl⟩

/-! ## C10: negative byte counts -/

/-- C10, counterexample: the byte count `-1` lies strictly between `-1048576` and `0`,
and the size forwarded to `SetRetention` for it is `-1` MB, not `0` MB. -/
theorem C10_zero_fails_at_minus_one :
    (-1048576 : Int) < -1 ∧ (-1 : Int) < 0
      ∧ adminOps (doSetRetention
            (fixedEnv (.ok (-1)) (.ok (6000 * Second)) (.ok "tenant/namespace") none)
            "tenant/namespace" ⟨"100m", "-1"⟩).trace
          = [.SetRetention "tenant/namespace" ⟨100, -1⟩]
      ∧ retentionSizeInMB (-1) ≠ 0 := by
  have hsize : retentionSizeInMB (-1) = -1 := by decide
  have htime : retentionTimeInMin (6000 * Second) = 100 := by
    rw [retentionTimeInMin_of_seconds (by decide)]; decide
  refine ⟨by decide, by decide, ?_, by decide⟩
  rw [doSetRetention_adminOps _ _ _ rfl rfl, hsize, htime]
  rfl

/-- C10, amended: a parsed byte count `b` with `-2097152 < b ≤ -1048576` is not `-1`,
yet `-1` MB is computed and forwarded to `SetRetention` (so for `b = -1048576`); and
for every `b` with `-1048576 < b < -1` it is `0` MB that is forwarded. -/
theorem C10_negative_sizes_forwarded {ε ν : Type} (env : Env ε ν) (NameArg : String)
    (data : NamespacesData) (b t : Int)
    (hs : env.ValidateSizeString data.LimitStr = .ok b)
    (ht : env.ParseRelativeTimeInSeconds data.RetentionTimeStr = .ok t) :
    (-2097152 < b → b ≤ -1048576 →
        b ≠ -1
        ∧ adminOps (doSetRetention env NameArg data).trace
          = [.SetRetention NameArg (NewRetentionPolicies (retentionTimeInMin t) (-1))])
      ∧ (-1048576 < b → b < -1 →
        adminOps (doSetRetention env NameArg data).trace
          = [.SetRetention NameArg (NewRetentionPolicies (retentionTimeInMin t) 0)])
      ∧ retentionSizeInMB (-1048576) = -1 := by
  refine ⟨?_, ?_, by decide⟩
  · intro h0 h1
    have hI : isInt64 b := by unfold isInt64; omega
    have hne : b ≠ -1 := by omega
    have hz : retentionSizeInMB b = -1 := by
      rw [retentionSizeInMB_of_neg hI (by omega) hne]; omega
    refine ⟨hne, ?_⟩
    rw [doSetRetention_adminOps env NameArg data hs ht, hz]
  · intro h0 h1
    have hI : isInt64 b := by unfold isInt64; omega
    have hne : b ≠ -1 := by omega
    have hz : retentionSizeInMB b = 0 := by
      rw [retentionSizeInMB_of_neg hI (by omega) hne]; omega
    rw [doSetRetention_adminOps env NameArg data hs ht, hz]

/-- C10, instances: the byte counts `-1048576` and `-5`. -/
theorem C10_negative_sizes_forwarded_witness :
    ((-1048576 : Int) ≠ -1
      ∧ adminOps (doSetRetention
          (fixedEnv (.ok (-1048576)) (.ok (-1)) (.ok "tenant/namespace") none)
          "tenant/namespace" ⟨"-1", "-1M"⟩).trace
        = [.SetRetention "tenant/namespace"
            (NewRetentionPolicies (retentionTimeInMin (-1)) (-1))])
    ∧ adminOps (doSetRetention
          (fixedEnv (.ok (-5)) (.ok (-1)) (.ok "tenant/namespace") none)
          "tenant/namespace" ⟨"-1", "-5"⟩).trace
        = [.SetRetention "tenant/namespace"
            (NewRetentionPolicies (retentionTimeInMin (-1)) 0)] :=
  ⟨(C10_negative_sizes_forwarded
      (fixedEnv (.ok (-1048576)) (.ok (-1)) (.ok "tenant/namespace") none)
      "tenant/namespace" ⟨"-1", "-1M"⟩ (-1048576) (-1) rfl rfl).1 (by decide) (by decide),
   (C10_negative_sizes_forwarded
      (fixedEnv (.ok (-5)) (.ok (-1)) (.ok "tenant/namespace") none)
      "tenant/namespace" ⟨"-1", "-5"⟩ (-5) (-1) rfl rfl).2.1 (by decide) (by decide)⟩

end Pulsarctl
